import Mathlib

/-!
Verification of the Empty-Check Service (src/main.py) against its
natural-language specification.  Python values that can appear in the
dynamically typed `data` field are embedded as a closed variant type;
the handlers are embedded as pure functions over an explicit clock
(elapsed milliseconds and a broken-down wall-clock time) and an explicit
exception event, since the Python code only reads the clock and catches
exceptions.
-/

/-- A Python value as it can reach `is_data_empty` through the `data`
field of a `CheckRequest`: `None`, a string, a list, a tuple, a set, a
dict, or a value of another type (int, float, bool), which the code
treats uniformly as non-empty. -/
inductive PyData where
  | none
  | str (s : String)
  | list (xs : List PyData)
  | tuple (xs : List PyData)
  | setv (xs : List PyData)
  | dict (kvs : List (String × PyData))
  | int (n : Int)
  | float (q : ℚ)
  | bool (b : Bool)

/-- Python `str.strip()` with no argument: remove leading and trailing
whitespace characters. -/
def pyStrip (s : String) : String :=
  String.mk (((s.data.dropWhile Char.isWhitespace).reverse.dropWhile Char.isWhitespace).reverse)

/-- Embedding of `is_data_empty` (src/main.py lines 63-86):
`None` is empty; a string is empty iff it strips to `""`; a list, dict,
set or tuple is empty iff its length is 0; everything else is not empty. -/
def is_data_empty : PyData → Bool
  | PyData.none => true
  | PyData.str s => pyStrip s == ""
  | PyData.list xs => xs.length == 0
  | PyData.tuple xs => xs.length == 0
  | PyData.setv xs => xs.length == 0
  | PyData.dict kvs => kvs.length == 0
  | PyData.int _ => false
  | PyData.float _ => false
  | PyData.bool _ => false

/-- The emptiness predicate as the specification words it: true exactly
for absent values, strings empty after trimming, and zero-element
sequences, sets, and mappings; false for every other value.  Declared
separately from `is_data_empty` so the code can be compared against the
spec. -/
def classify_spec : PyData → Bool
  | PyData.none => true
  | PyData.str s => (pyStrip s).length == 0
  | PyData.list xs => xs.isEmpty
  | PyData.tuple xs => xs.isEmpty
  | PyData.setv xs => xs.isEmpty
  | PyData.dict kvs => kvs.isEmpty
  | _ => false

lemma str_beq_empty_eq_length (t : String) : (t == "") = (t.length == 0) := by
  rcases t with ⟨l⟩
  cases l <;> simp [String.length, String.ext_iff]

lemma length_beq_zero_eq_isEmpty {α : Type} (xs : List α) :
    (xs.length == 0) = xs.isEmpty := by
  cases xs <;> rfl

/-- Claim C1: `is_data_empty` returns true exactly on absent values,
strings that trim to zero length, and zero-element sequences, sets and
mappings, and false on everything else (in particular numbers, booleans,
non-empty strings and non-empty collections); moreover the concrete
examples of the spec hold: `" "` is empty, `"a"` is not, `[]` is empty,
`[0]` is not, `\x7b\x7d` is empty, `0` is not, `false` is not. -/
theorem is_data_empty_correct :
    (∀ d : PyData, is_data_empty d = classify_spec d) ∧
    is_data_empty (PyData.str " ") = true ∧
    is_data_empty (PyData.str "a") = false ∧
    is_data_empty (PyData.list []) = true ∧
    is_data_empty (PyData.list [PyData.int 0]) = false ∧
    is_data_empty (PyData.dict []) = true ∧
    is_data_empty (PyData.int 0) = false ∧
    is_data_empty (PyData.bool false) = false := by
  refine ⟨fun d => ?_, by decide, by decide, rfl, rfl, rfl, rfl, rfl⟩
  cases d with
  | str s => exact str_beq_empty_eq_length (pyStrip s)
  | list xs => exact length_beq_zero_eq_isEmpty xs
  | tuple xs => exact length_beq_zero_eq_isEmpty xs
  | setv xs => exact length_beq_zero_eq_isEmpty xs
  | dict kvs => exact length_beq_zero_eq_isEmpty kvs
  | _ => rfl

/-- A JSON value as produced by the service (Python ints and floats both
serialize to JSON numbers; the model keeps them apart so that "the status
code as an integer" is expressible). -/
inductive Json where
  | null
  | bool (b : Bool)
  | int (n : Int)
  | num (q : ℚ)
  | str (s : String)
  | arr (xs : List Json)
  | obj (kvs : List (String × Json))

/-- Field lookup in a JSON object; `none` on other values. -/
def Json.lookup : Json → String → Option Json
  | Json.obj kvs, k => kvs.lookup k
  | _, _ => Option.none

/-- A broken-down wall-clock time as consumed by
`time.strftime("%Y-%m-%d %H:%M:%S")`. -/
structure Tm where
  year : Nat
  mon : Nat
  mday : Nat
  hour : Nat
  min : Nat
  sec : Nat

/-- The decimal digit character of `n % 10`. -/
def digitChar (n : Nat) : Char := Char.ofNat (48 + n % 10)

/-- `time.strftime("%Y-%m-%d %H:%M:%S")` on a broken-down time: the year
zero-padded to 4 digits and every other field zero-padded to 2 digits
(faithful for the in-range times `strftime` is fed). -/
def strftimeYmdHMS (t : Tm) : String :=
  String.mk [digitChar (t.year / 1000), digitChar (t.year / 100),
    digitChar (t.year / 10), digitChar t.year,
    '-', digitChar (t.mon / 10), digitChar t.mon,
    '-', digitChar (t.mday / 10), digitChar t.mday,
    ' ', digitChar (t.hour / 10), digitChar t.hour,
    ':', digitChar (t.min / 10), digitChar t.min,
    ':', digitChar (t.sec / 10), digitChar t.sec]

/-- Checks that a string has the shape `YYYY-MM-DD HH:MM:SS`: 19
characters, digits everywhere except the two dashes, the space and the
two colons. -/
def isTimestampFormat (s : String) : Bool :=
  match s.data with
  | [y1, y2, y3, y4, c1, m1, m2, c2, d1, d2, c3, h1, h2, c4, n1, n2, c5, s1, s2] =>
    y1.isDigit && y2.isDigit && y3.isDigit && y4.isDigit && (c1 == '-') &&
    m1.isDigit && m2.isDigit && (c2 == '-') && d1.isDigit && d2.isDigit &&
    (c3 == ' ') && h1.isDigit && h2.isDigit && (c4 == ':') && n1.isDigit &&
    n2.isDigit && (c5 == ':') && s1.isDigit && s2.isDigit
  | _ => false

/-- Embedding of the `CheckRequest` pydantic model (src/main.py lines
27-38) with its field defaults: `data` none, `check_empty` true,
`timeout` 0. -/
structure CheckRequest where
  data : PyData := PyData.none
  check_empty : Bool := true
  timeout : Int := 0

/-- Construction of a `CheckRequest` from a request body in which any of
the three fields may be omitted: an omitted field takes its declared
default. -/
def CheckRequest.fromFields (d : Option PyData) (c : Option Bool)
    (t : Option Int) : CheckRequest :=
  { data := d.getD PyData.none,
    check_empty := c.getD true,
    timeout := t.getD 0 }

/-- Embedding of the `CheckResponse` pydantic model (src/main.py lines
41-56).  `processing_time_ms` is a Python float; it is modelled as a
rational number. -/
structure CheckResponse where
  success : Bool
  message : String
  is_empty : Bool
  timestamp : String
  processing_time_ms : ℚ
  deriving DecidableEq

/-- Serialization of a `CheckResponse` (pydantic `.dict()` /
response-model marshalling): a JSON object with the five fields. -/
def checkResponseToJson (r : CheckResponse) : Json :=
  Json.obj [("success", Json.bool r.success),
    ("message", Json.str r.message),
    ("is_empty", Json.bool r.is_empty),
    ("timestamp", Json.str r.timestamp),
    ("processing_time_ms", Json.num r.processing_time_ms)]

def Json.asBool : Json → Option Bool
  | Json.bool b => some b
  | _ => Option.none

def Json.asStr : Json → Option String
  | Json.str s => some s
  | _ => Option.none

def Json.asNum : Json → Option ℚ
  | Json.num q => some q
  | _ => Option.none

/-- Deserialization of a `CheckResponse` from a JSON value (pydantic
validation of the five required fields, by name). -/
def checkResponseFromJson (j : Json) : Option CheckResponse := do
  let s ← (j.lookup "success").bind Json.asBool
  let m ← (j.lookup "message").bind Json.asStr
  let e ← (j.lookup "is_empty").bind Json.asBool
  let ts ← (j.lookup "timestamp").bind Json.asStr
  let p ← (j.lookup "processing_time_ms").bind Json.asNum
  pure { success := s, message := m, is_empty := e, timestamp := ts,
         processing_time_ms := p }

/-- Python `round(x, 2)`: round to 2 decimal places.  (Python rounds
half-to-even on floats; the boundary at an exact half of a hundredth is
not exercised by any property proved here.) -/
def round2 (q : ℚ) : ℚ := (round (q * 100) : ℤ) / 100

/-- The outcome of one call of the `check-empty` handler: either a normal
`CheckResponse` or an `HTTPException` carrying a status code and a JSON
detail payload. -/
inductive HandleResult where
  | ok (r : CheckResponse)
  | httpError (code : Nat) (detail : Json)

/-- A handler run together with the artificial delay it performed:
`slept = some d` means the handler awaited `asyncio.sleep` for `d`
seconds, `none` means the sleep branch was not taken. -/
structure HandleOutcome where
  result : HandleResult
  slept : Option ℚ

/-- Embedding of `check_empty_response` (src/main.py lines 139-205).
The clock is passed in: `elapsed_ms` is `(time.time() - start_time) *
1000` at the point it is read, `now` is the wall-clock time handed to
`strftime`.  `exc` is `some e` when an unexpected exception with
description `e` (`str(e)`) is raised inside the `try` block, `none` on a
normal run.  The sleep branch is taken exactly when `timeout > 0`, for
`timeout / 1000` seconds. -/
def check_empty_response (req : CheckRequest) (elapsed_ms : ℚ) (now : Tm)
    (exc : Option String) : HandleOutcome :=
  let slept : Option ℚ :=
    if req.timeout > 0 then some ((req.timeout : ℚ) / 1000) else Option.none
  match exc with
  | some e =>
      let error_response : CheckResponse :=
        { success := false,
          message := "处理请求时发生错误: " ++ e,
          is_empty := false,
          timestamp := strftimeYmdHMS now,
          processing_time_ms := round2 elapsed_ms }
      { result := HandleResult.httpError 500 (checkResponseToJson error_response),
        slept := slept }
  | Option.none =>
      let is_empty : Bool :=
        if req.check_empty then is_data_empty req.data else false
      let response : CheckResponse :=
        { success := true,
          message := if is_empty then "数据为空" else "检查完成",
          is_empty := is_empty,
          timestamp := strftimeYmdHMS now,
          processing_time_ms := round2 elapsed_ms }
      { result := HandleResult.ok response, slept := slept }

/-- Embedding of the `root` handler (src/main.py lines 93-115): the
static service-information document it returns.  Its `endpoints` map has
exactly three entries. -/
def root : Json :=
  Json.obj [("service", Json.str "空响应检查服务"),
    ("version", Json.str "1.0.0"),
    ("status", Json.str "运行中"),
    ("endpoints", Json.obj [("GET /", Json.str "服务信息"),
      ("POST /api/check-empty", Json.str "检查空响应"),
      ("GET /api/health", Json.str "健康检查")])]

/-- A `JSONResponse` as built by the exception handler: an HTTP status
code and a JSON body. -/
structure JSONResponseModel where
  status_code : Nat
  content : Json

/-- Embedding of `http_exception_handler` (src/main.py lines 228-253):
renders any `HTTPException` as a JSON body
`\x7bsuccess: false, error: \x7bcode, message, timestamp\x7d\x7d` with the
exception's own status code on the outer response. -/
def http_exception_handler (status_code : Nat) (detail : Json) (now : Tm) :
    JSONResponseModel :=
  { status_code := status_code,
    content := Json.obj [("success", Json.bool false),
      ("error", Json.obj [("code", Json.int (status_code : Int)),
        ("message", detail),
        ("timestamp", Json.str (strftimeYmdHMS now))])] }

/-- The message of a normal handler outcome, `none` for an error. -/
def HandleResult.okMessage : HandleResult → Option String
  | HandleResult.ok r => some r.message
  | _ => Option.none

/-- A concrete broken-down time, 2026-01-19 12:00:00. -/
def tm0 : Tm := ⟨2026, 1, 19, 12, 0, 0⟩

lemma digitChar_isDigit (n : Nat) : (digitChar n).isDigit = true := by
  unfold digitChar
  set k := n % 10 with hk
  have h : k < 10 := Nat.mod_lt _ (by norm_num)
  interval_cases k <;> decide

/-- Claim C2: with `check_empty = false` the handler returns a normal
response whose `is_empty` is false, and the `data` field is never
inspected: replacing it by any other value leaves the whole outcome
unchanged. -/
theorem check_empty_false_no_inspect (req : CheckRequest) (elapsed : ℚ)
    (now : Tm) (h : req.check_empty = false) :
    (∃ r, (check_empty_response req elapsed now Option.none).result =
        HandleResult.ok r ∧ r.is_empty = false) ∧
    ∀ d, check_empty_response { req with data := d } elapsed now Option.none =
        check_empty_response req elapsed now Option.none := by
  refine ⟨⟨_, rfl, by simp [check_empty_response, h]⟩, fun d => ?_⟩
  simp [check_empty_response, h]

/-- Witness for C2 at a concrete request with non-empty data. -/
theorem check_empty_false_no_inspect_witness :
    ∃ r, (check_empty_response
        { data := PyData.str "x", check_empty := false, timeout := 0 }
        0 tm0 Option.none).result = HandleResult.ok r ∧ r.is_empty = false :=
  (check_empty_false_no_inspect
    { data := PyData.str "x", check_empty := false, timeout := 0 }
    0 tm0 rfl).1

/-- Claim C3, counterexample to the literal claim: on a normal run with
non-empty data the message is the Chinese string `"检查完成"`, which is
not the string `"check complete"` the claim states. -/
theorem check_message_counterexample :
    (check_empty_response
        { data := PyData.int 1, check_empty := true, timeout := 0 }
        0 tm0 Option.none).result.okMessage = some "检查完成" ∧
    "检查完成" ≠ "check complete" := by
  exact ⟨rfl, by decide⟩

/-- Claim C3 as amended: on a run without an unexpected exception the
handler returns `success = true`, the message `"检查完成"` (in the
source's language, "check complete") when the computed emptiness is
false and `"数据为空"` ("data is empty") when it is true, the computed
`is_empty`, the formatted timestamp of the current time, and the rounded
elapsed time. -/
theorem check_response_fields (req : CheckRequest) (elapsed : ℚ) (now : Tm) :
    (check_empty_response req elapsed now Option.none).result =
      HandleResult.ok
        { success := true,
          message := if (if req.check_empty then is_data_empty req.data
              else false) then "数据为空" else "检查完成",
          is_empty := if req.check_empty then is_data_empty req.data
              else false,
          timestamp := strftimeYmdHMS now,
          processing_time_ms := round2 elapsed } := rfl

/-- Claim C4, counterexample to the literal claim: the route map of the
root document has no entry for `GET /api/empty` (while the document does
carry the version string). -/
theorem root_endpoints_counterexample :
    (root.lookup "endpoints").bind (fun j => j.lookup "GET /api/empty") =
      Option.none ∧
    root.lookup "version" = some (Json.str "1.0.0") := ⟨rfl, rfl⟩

/-- Claim C4 as amended: the root handler returns a static document with
the service name, the version string "1.0.0", a status text, and a route
map with exactly three entries — `GET /`, `POST /api/check-empty` and
`GET /api/health` — each mapped to a human-readable description;
`GET /api/empty` is not listed. -/
theorem root_document :
    root.lookup "service" = some (Json.str "空响应检查服务") ∧
    root.lookup "version" = some (Json.str "1.0.0") ∧
    root.lookup "status" = some (Json.str "运行中") ∧
    root.lookup "endpoints" = some (Json.obj
      [("GET /", Json.str "服务信息"),
       ("POST /api/check-empty", Json.str "检查空响应"),
       ("GET /api/health", Json.str "健康检查")]) :=
  ⟨rfl, rfl, rfl, rfl⟩

/-- Claim C5: when an unexpected exception with description `e` is
raised inside the handler, the outcome is an HTTP 500 error whose detail
is the serialized `CheckResponse` with `success = false` and a message
embedding `e`, and no normal response is returned. -/
theorem check_exception_500 (req : CheckRequest) (elapsed : ℚ) (now : Tm)
    (e : String) :
    (check_empty_response req elapsed now (some e)).result =
      HandleResult.httpError 500 (checkResponseToJson
        { success := false,
          message := "处理请求时发生错误: " ++ e,
          is_empty := false,
          timestamp := strftimeYmdHMS now,
          processing_time_ms := round2 elapsed }) ∧
    ∀ r, (check_empty_response req elapsed now (some e)).result ≠
        HandleResult.ok r :=
  ⟨rfl, fun _ h => nomatch h⟩

/-- Claim C6: the HTTP-exception handler renders a body of exactly the
shape `\x7bsuccess: false, error: \x7bcode, message, timestamp\x7d\x7d`,
with the original status code as an integer both inside the body and on
the outer response, the detail as the message, and a timestamp in the
format `YYYY-MM-DD HH:MM:SS`. -/
theorem http_exception_shape (code : Nat) (detail : Json) (now : Tm) :
    http_exception_handler code detail now =
      { status_code := code,
        content := Json.obj [("success", Json.bool false),
          ("error", Json.obj [("code", Json.int (code : Int)),
            ("message", detail),
            ("timestamp", Json.str (strftimeYmdHMS now))])] } ∧
    isTimestampFormat (strftimeYmdHMS now) = true := by
  refine ⟨rfl, ?_⟩
  simp [isTimestampFormat, strftimeYmdHMS, digitChar_isDigit]

/-- Claim C7: a `CheckRequest` built with all fields omitted has
`data` absent, `check_empty = true` and `timeout = 0`, and omitting any
single field yields that field's default. -/
theorem checkRequest_defaults :
    CheckRequest.fromFields Option.none Option.none Option.none =
      { data := PyData.none, check_empty := true, timeout := 0 } ∧
    (∀ d c, (CheckRequest.fromFields d c Option.none).timeout = 0) ∧
    (∀ d t, (CheckRequest.fromFields d Option.none t).check_empty = true) ∧
    (∀ c t, (CheckRequest.fromFields Option.none c t).data = PyData.none) :=
  ⟨rfl, fun _ _ => rfl, fun _ _ => rfl, fun _ _ => rfl⟩

/-- Claim C8: serializing a `CheckResponse` and deserializing the result
recovers the response with all five fields exactly. -/
theorem checkResponse_roundtrip (r : CheckResponse) :
    checkResponseFromJson (checkResponseToJson r) = some r := rfl

/-- Claim C9: `is_data_empty` is total and deterministic over the
variant type of inputs: on every input it yields a boolean, and equal
inputs yield equal results. -/
theorem is_data_empty_pure (d : PyData) :
    (is_data_empty d = true ∨ is_data_empty d = false) ∧
    ∀ d2 : PyData, d = d2 → is_data_empty d = is_data_empty d2 :=
  ⟨Bool.eq_false_or_eq_true _ |>.symm.imp id id |>.symm, fun _ h => by rw [h]⟩

/-- Witness for C9 at a concrete input. -/
theorem is_data_empty_pure_witness :
    (is_data_empty PyData.none = true ∨ is_data_empty PyData.none = false) ∧
    is_data_empty PyData.none = is_data_empty PyData.none :=
  ⟨(is_data_empty_pure PyData.none).1,
   (is_data_empty_pure PyData.none).2 PyData.none rfl⟩

/-- Claim C10: with `timeout ≤ 0` (in particular a negative timeout) the
sleep branch is never taken, the outcome is identical to the same
request with `timeout = 0`, and the normal run raises no error. -/
theorem timeout_nonpositive_no_delay (req : CheckRequest) (elapsed : ℚ)
    (now : Tm) (h : req.timeout ≤ 0) :
    (∀ exc, (check_empty_response req elapsed now exc).slept = Option.none) ∧
    check_empty_response req elapsed now Option.none =
      check_empty_response { req with timeout := 0 } elapsed now Option.none ∧
    ∃ r, (check_empty_response req elapsed now Option.none).result =
        HandleResult.ok r := by
  have hn : ¬ req.timeout > 0 := by omega
  refine ⟨fun exc => ?_, ?_, ⟨_, rfl⟩⟩
  · cases exc <;> simp [check_empty_response, hn]
  · simp [check_empty_response, hn]

/-- Witness for C10 at a concrete request with a negative timeout. -/
theorem timeout_nonpositive_no_delay_witness :
    (check_empty_response
        { data := PyData.none, check_empty := true, timeout := -5 }
        0 tm0 Option.none).slept = Option.none :=
  (timeout_nonpositive_no_delay
    { data := PyData.none, check_empty := true, timeout := -5 }
    0 tm0 (by decide)).1 Option.none
